import Mathlib

/-!
InputGeom (package detour, inputgeom.go)

A shallow embedding of the geometry-input scene of inputgeom.go and the
properties of its load lifecycle and read accessors.

Conventions of the embedding:

* a Go pointer is an `Option` (`none` is nil) holding the value it points to;
* a Go fixed-size array `[n]T` is a `Mathlib.Vector T n`, a slice is a `List`;
* a `float32` is carried as its IEEE-754 bit pattern (the file only stores and
  copies such values, it does no arithmetic on them);
* `int32` fields are `Int` (the file only stores the constant 0 in them);
* the code inputgeom.go calls but does not define (`filepath.Ext` and the
  entry points of package recast) is a parameter, the record `Env`.
-/

set_option autoImplicit false

namespace Detour

/-! ## Constants and records -/

abbrev MAX_OFFMESH_CONNECTIONS : Nat := 256
abbrev MAX_VOLUMES : Nat := 256
abbrev MAX_CONVEXVOL_PTS : Nat := 12

/-- A Go `float32`, as the natural number of its 32-bit pattern. The zero value
`0.0` has pattern 0. -/
abbrev float32 : Type := Nat

/-- The Go array type `[3]float32`. -/
abbrev Vec3 : Type := Mathlib.Vector float32 3

/-- The zero value of `[3]float32`. -/
def Vec3.zero : Vec3 := Mathlib.Vector.replicate 3 0

/-- The struct `ConvexVolume`. -/
structure ConvexVolume where
  verts : Mathlib.Vector float32 (MAX_CONVEXVOL_PTS * 3)
  hmin : float32
  hmax : float32
  nverts : Int
  area : Int
  deriving DecidableEq

/-- The zero value of `ConvexVolume`. -/
def ConvexVolume.zero : ConvexVolume where
  verts := Mathlib.Vector.replicate (MAX_CONVEXVOL_PTS * 3) 0
  hmin := 0
  hmax := 0
  nverts := 0
  area := 0

/-- The struct `BuildSettings`. -/
structure BuildSettings where
  cellSize : float32
  cellHeight : float32
  agentHeight : float32
  agentRadius : float32
  agentMaxClimb : float32
  agentMaxSlope : float32
  regionMinSize : float32
  regionMergeSize : float32
  edgeMaxLen : float32
  edgeMaxError : float32
  vertsPerPoly : float32
  detailSampleDist : float32
  detailSampleMaxError : float32
  partitionType : Int
  navMeshBMin : Vec3
  navMeshBMax : Vec3
  tileSize : float32
  deriving DecidableEq

/-- The zero value of `BuildSettings`: every field zero. -/
def BuildSettings.zero : BuildSettings where
  cellSize := 0
  cellHeight := 0
  agentHeight := 0
  agentRadius := 0
  agentMaxClimb := 0
  agentMaxSlope := 0
  regionMinSize := 0
  regionMergeSize := 0
  edgeMaxLen := 0
  edgeMaxError := 0
  vertsPerPoly := 0
  detailSampleDist := 0
  detailSampleMaxError := 0
  partitionType := 0
  navMeshBMin := Vec3.zero
  navMeshBMax := Vec3.zero
  tileSize := 0

/-- Modelled from the spec: the type `recast.MeshLoaderObj` is declared in
package recast, outside inputgeom.go. The spec's MeshSource yields a vertex
buffer, a triangle buffer and their counts; these are the four readings
`Verts()`, `VertCount()`, `Tris()`, `TriCount()` that inputgeom.go takes. -/
structure MeshLoaderObj where
  Verts : List float32
  VertCount : Int
  Tris : List Int
  TriCount : Int
  deriving DecidableEq

/-- Modelled from the spec: the type `recast.ChunkyTriMesh` is declared in
package recast, outside inputgeom.go, and the spec treats the spatial index as
a black box. Its contents are carried as a list of words; inputgeom.go never
reads them. -/
structure ChunkyTriMesh where
  words : List Int
  deriving DecidableEq

/-- The zero value that `new(recast.ChunkyTriMesh)` points to. -/
def ChunkyTriMesh.zero : ChunkyTriMesh := ⟨[]⟩

/-- The struct `InputGeom`. -/
structure InputGeom where
  m_chunkyMesh : Option ChunkyTriMesh
  m_mesh : Option MeshLoaderObj
  m_meshBMin : Vec3
  m_meshBMax : Vec3
  m_buildSettings : BuildSettings
  m_hasBuildSettings : Bool
  m_offMeshConVerts : Mathlib.Vector float32 (MAX_OFFMESH_CONNECTIONS * 3 * 2)
  m_offMeshConRads : Mathlib.Vector float32 MAX_OFFMESH_CONNECTIONS
  m_offMeshConDirs : Mathlib.Vector Nat MAX_OFFMESH_CONNECTIONS
  m_offMeshConAreas : Mathlib.Vector Nat MAX_OFFMESH_CONNECTIONS
  m_offMeshConFlags : Mathlib.Vector Nat MAX_OFFMESH_CONNECTIONS
  m_offMeshConId : Mathlib.Vector Nat MAX_OFFMESH_CONNECTIONS
  m_offMeshConCount : Int
  m_volumes : Mathlib.Vector ConvexVolume MAX_VOLUMES
  m_volumeCount : Int
  deriving DecidableEq

/-- The zero value of `InputGeom`: the empty scene. -/
def InputGeom.zero : InputGeom where
  m_chunkyMesh := none
  m_mesh := none
  m_meshBMin := Vec3.zero
  m_meshBMax := Vec3.zero
  m_buildSettings := BuildSettings.zero
  m_hasBuildSettings := false
  m_offMeshConVerts := Mathlib.Vector.replicate (MAX_OFFMESH_CONNECTIONS * 3 * 2) 0
  m_offMeshConRads := Mathlib.Vector.replicate MAX_OFFMESH_CONNECTIONS 0
  m_offMeshConDirs := Mathlib.Vector.replicate MAX_OFFMESH_CONNECTIONS 0
  m_offMeshConAreas := Mathlib.Vector.replicate MAX_OFFMESH_CONNECTIONS 0
  m_offMeshConFlags := Mathlib.Vector.replicate MAX_OFFMESH_CONNECTIONS 0
  m_offMeshConId := Mathlib.Vector.replicate MAX_OFFMESH_CONNECTIONS 0
  m_offMeshConCount := 0
  m_volumes := Mathlib.Vector.replicate MAX_VOLUMES ConvexVolume.zero
  m_volumeCount := 0

/-! ## The environment of inputgeom.go -/

/-- The functions inputgeom.go calls and does not define, as parameters.

* `Ext` is `filepath.Ext` of the Go standard library;
* `NewMeshLoaderObj` is the pointer `recast.NewMeshLoaderObj()` returns
  (`none` is nil);
* `Load m path` is `m.Load(path)`: the loader after the call and the returned
  error (`none` is the nil error);
* `CalcBounds verts nv bmin bmax` is `recast.CalcBounds`: the contents of the
  two three-element output slices after the call;
* `CreateChunkyTriMesh verts tris ntris trisPerChunk cm` is
  `recast.CreateChunkyTriMesh`: the index object after the call and the
  returned boolean.

The slices handed to `CalcBounds` and `CreateChunkyTriMesh` as inputs (the
vertex and triangle buffers) are taken to be read only. One `Env` describes
the outcomes seen by one call of `load`. -/
structure Env where
  Ext : String → String
  NewMeshLoaderObj : Option MeshLoaderObj
  Load : MeshLoaderObj → String → MeshLoaderObj × Option String
  CalcBounds : List float32 → Int → Vec3 → Vec3 → Vec3 × Vec3
  CreateChunkyTriMesh :
    List float32 → List Int → Int → Int → ChunkyTriMesh → ChunkyTriMesh × Bool

/-- The diagnostics inputgeom.go writes (`log.Printf` and `ctx.Log` with
severity `RC_LOG_ERROR`), one constructor per message. -/
inductive LogLine where
  | gsetNotImplemented
  | outOfMemoryMesh
  | couldNotLoad (path : String)
  | outOfMemoryChunkyMesh
  | failedToBuildChunkyMesh
  deriving DecidableEq

/-- What a call of `load` or `loadMesh` leaves: the scene after the call, the
returned boolean and the diagnostics written. -/
structure LoadResult where
  ig : InputGeom
  ret : Bool
  log : List LogLine

/-! ## The operations of InputGeom -/

/-- The method `InputGeom.loadMesh`. -/
def loadMesh (env : Env) (ig : InputGeom) (path : String) : LoadResult :=
  let ig := if ig.m_mesh ≠ none then { ig with m_chunkyMesh := none, m_mesh := none } else ig
  let ig := { ig with m_offMeshConCount := 0 }
  let ig := { ig with m_volumeCount := 0 }
  let ig := { ig with m_mesh := env.NewMeshLoaderObj }
  match ig.m_mesh with
  | none => ⟨ig, false, [LogLine.outOfMemoryMesh]⟩
  | some m =>
    let loaded := env.Load m path
    let m := loaded.1
    let ig := { ig with m_mesh := some m }
    if loaded.2 ≠ none then ⟨ig, false, [LogLine.couldNotLoad path]⟩
    else
      let bounds := env.CalcBounds m.Verts m.VertCount ig.m_meshBMin ig.m_meshBMax
      let ig := { ig with m_meshBMin := bounds.1, m_meshBMax := bounds.2 }
      let ig := { ig with m_chunkyMesh := some ChunkyTriMesh.zero }
      match ig.m_chunkyMesh with
      | none => ⟨ig, false, [LogLine.outOfMemoryChunkyMesh]⟩
      | some cm =>
        let built := env.CreateChunkyTriMesh m.Verts m.Tris m.TriCount 256 cm
        let ig := { ig with m_chunkyMesh := some built.1 }
        if built.2 = false then ⟨ig, false, [LogLine.failedToBuildChunkyMesh]⟩
        else ⟨ig, true, []⟩

/-- The method `InputGeom.load`: the switch on `filepath.Ext(path)`. -/
def load (env : Env) (ig : InputGeom) (path : String) : LoadResult :=
  if env.Ext path = ".obj" then loadMesh env ig path
  else if env.Ext path = ".gset" then ⟨ig, false, [LogLine.gsetNotImplemented]⟩
  else ⟨ig, false, []⟩

/-- The method `InputGeom.Mesh`. -/
def InputGeom.Mesh (ig : InputGeom) : Option MeshLoaderObj := ig.m_mesh

/-- The method `InputGeom.MeshBoundsMin`. -/
def InputGeom.MeshBoundsMin (ig : InputGeom) : Vec3 := ig.m_meshBMin

/-- The method `InputGeom.MeshBoundsMax`. -/
def InputGeom.MeshBoundsMax (ig : InputGeom) : Vec3 := ig.m_meshBMax

/-- The method `InputGeom.NavMeshBoundsMin`. -/
def InputGeom.NavMeshBoundsMin (ig : InputGeom) : Vec3 :=
  if ig.m_hasBuildSettings then ig.m_buildSettings.navMeshBMin else ig.m_meshBMin

/-- The method `InputGeom.NavMeshBoundsMax`. -/
def InputGeom.NavMeshBoundsMax (ig : InputGeom) : Vec3 :=
  if ig.m_hasBuildSettings then ig.m_buildSettings.navMeshBMax else ig.m_meshBMax

/-- The method `InputGeom.ChunkyMesh`. -/
def InputGeom.ChunkyMesh (ig : InputGeom) : Option ChunkyTriMesh := ig.m_chunkyMesh

/-- The method `InputGeom.BuildSettings`: a pointer to the stored record, or
nil. -/
def InputGeom.BuildSettings (ig : InputGeom) : Option BuildSettings :=
  if ig.m_hasBuildSettings then some ig.m_buildSettings else none

/-- The method `InputGeom.ConvexVolumes`: the slice `ig.m_volumes[:]`. -/
def InputGeom.ConvexVolumes (ig : InputGeom) : List ConvexVolume := ig.m_volumes.toList

/-- The method `InputGeom.ConvexVolumesCount`. -/
def InputGeom.ConvexVolumesCount (ig : InputGeom) : Int := ig.m_volumeCount

/-- A finite sequence of `load` calls, each with its own environment (so the
outcomes of the parser and of the index builder may differ from call to call),
applied to a scene from left to right. -/
def loads (calls : List (Env × String)) (ig : InputGeom) : InputGeom :=
  calls.foldl (fun s c => (load c.1 s c.2).ig) ig

/-! ## Concrete environments

`filepathExt` follows `filepath.Ext` of the Go standard library on a platform
whose only path separator is the slash: scan from the end of the path, stop at
a separator, return the suffix that starts at the last dot of the final
element. The three environments below differ only in the outcome of the
parser and of the index builder. -/

/-- The backward scan of `filepath.Ext`: `rev` is the part of the path not yet
scanned, last character first, and `suffix` the part already scanned. -/
def extScan : List Char → List Char → List Char
  | [], _ => []
  | c :: rev, suffix =>
    if c = '/' then []
    else if c = '.' then c :: suffix
    else extScan rev (c :: suffix)

/-- The function `filepath.Ext` (slash-separated paths). -/
def filepathExt (path : String) : String := String.mk (extScan path.data.reverse [])

/-- A mesh of one triangle: three vertices, one index triple. -/
def oneTriangle : MeshLoaderObj where
  Verts := [0, 0, 0, 1065353216, 0, 0, 0, 0, 1065353216]
  VertCount := 3
  Tris := [0, 1, 2]
  TriCount := 1

/-- An environment in which every step succeeds: the loader parses any path
to `oneTriangle`, the bounds are those of that triangle and the index builder
succeeds. -/
def envSuccess : Env where
  Ext := filepathExt
  NewMeshLoaderObj := some ⟨[], 0, [], 0⟩
  Load := fun _ _ => (oneTriangle, none)
  CalcBounds := fun _ _ _ _ => (⟨[0, 0, 0], rfl⟩, ⟨[1065353216, 0, 1065353216], rfl⟩)
  CreateChunkyTriMesh := fun _ tris ntris trisPerChunk _ => (⟨ntris :: trisPerChunk :: tris⟩, true)

/-- An environment whose loader reports an error on every path and leaves the
loader object as it was. -/
def envParseError : Env where
  Ext := filepathExt
  NewMeshLoaderObj := some ⟨[], 0, [], 0⟩
  Load := fun m _ => (m, some "no such file")
  CalcBounds := envSuccess.CalcBounds
  CreateChunkyTriMesh := envSuccess.CreateChunkyTriMesh

/-- An environment whose loader succeeds and whose index builder fails on
every mesh, leaving the index object as it was. -/
def envBuildFailure : Env where
  Ext := filepathExt
  NewMeshLoaderObj := some ⟨[], 0, [], 0⟩
  Load := envSuccess.Load
  CalcBounds := envSuccess.CalcBounds
  CreateChunkyTriMesh := fun _ _ _ _ cm => (cm, false)

/-- A scene with five active convex volumes, three active off-mesh
connections and no mesh. -/
def annotatedScene : InputGeom :=
  { InputGeom.zero with m_volumeCount := 5, m_offMeshConCount := 3 }

/-- A scene with a configuration present whose override box differs from the
stored mesh bounds (which are zero). -/
def configuredScene : InputGeom :=
  { InputGeom.zero with
    m_hasBuildSettings := true
    m_buildSettings :=
      { BuildSettings.zero with
        navMeshBMin := ⟨[3212836864, 0, 3212836864], rfl⟩
        navMeshBMax := ⟨[1073741824, 1073741824, 1073741824], rfl⟩ } }

/-! ## Lemmas on load and loadMesh -/

theorem load_of_obj (env : Env) (ig : InputGeom) (path : String)
    (hext : env.Ext path = ".obj") : load env ig path = loadMesh env ig path := by
  simp [load, hext]

theorem load_of_not_obj (env : Env) (ig : InputGeom) (path : String)
    (hext : env.Ext path ≠ ".obj") :
    (load env ig path).ig = ig ∧ (load env ig path).ret = false := by
  unfold load
  rw [if_neg hext]
  split <;> exact ⟨rfl, rfl⟩

/-- The presence relation that every `loadMesh` call establishes, whatever
the scene it starts from: an index object is stored only next to a mesh
object. -/
theorem loadMesh_chunky_imp_mesh (env : Env) (ig : InputGeom) (path : String)
    (h : ig.m_chunkyMesh ≠ none → ig.m_mesh ≠ none) :
    (loadMesh env ig path).ig.m_chunkyMesh ≠ none → (loadMesh env ig path).ig.m_mesh ≠ none := by
  unfold loadMesh
  by_cases hm : ig.m_mesh = none
  · have hc : ig.m_chunkyMesh = none := by
      by_contra hc
      exact h hc hm
    cases hnew : env.NewMeshLoaderObj with
    | none => simp [hm, hc, hnew]
    | some m0 =>
      simp only [hm, hnew]
      split_ifs <;> simp
  · cases hnew : env.NewMeshLoaderObj with
    | none => simp [hm, hnew]
    | some m0 =>
      simp only [hm, hnew]
      split_ifs <;> simp

theorem load_chunky_imp_mesh (env : Env) (ig : InputGeom) (path : String)
    (h : ig.m_chunkyMesh ≠ none → ig.m_mesh ≠ none) :
    (load env ig path).ig.m_chunkyMesh ≠ none → (load env ig path).ig.m_mesh ≠ none := by
  by_cases hext : env.Ext path = ".obj"
  · rw [load_of_obj env ig path hext]
    exact loadMesh_chunky_imp_mesh env ig path h
  · rw [(load_of_not_obj env ig path hext).1]
    exact h

/-- When the loader reports no error (or is not constructed), `loadMesh`
leaves the mesh object and the index object both stored or both absent. -/
theorem loadMesh_copresence (env : Env) (ig : InputGeom) (path : String)
    (h : ig.m_chunkyMesh ≠ none → ig.m_mesh ≠ none)
    (hparse : ∀ m0, env.NewMeshLoaderObj = some m0 → (env.Load m0 path).2 = none) :
    (loadMesh env ig path).ig.m_chunkyMesh ≠ none ↔ (loadMesh env ig path).ig.m_mesh ≠ none := by
  unfold loadMesh
  by_cases hm : ig.m_mesh = none
  · have hc : ig.m_chunkyMesh = none := by
      by_contra hc
      exact h hc hm
    cases hnew : env.NewMeshLoaderObj with
    | none => simp [hm, hc, hnew]
    | some m0 =>
      have hp := hparse m0 hnew
      by_cases hb : (env.CreateChunkyTriMesh (env.Load m0 path).1.Verts (env.Load m0 path).1.Tris
        (env.Load m0 path).1.TriCount 256 ChunkyTriMesh.zero).2 = false <;>
        simp [hm, hnew, hp, hb]
  · cases hnew : env.NewMeshLoaderObj with
    | none => simp [hm, hnew]
    | some m0 =>
      have hp := hparse m0 hnew
      by_cases hb : (env.CreateChunkyTriMesh (env.Load m0 path).1.Verts (env.Load m0 path).1.Tris
        (env.Load m0 path).1.TriCount 256 ChunkyTriMesh.zero).2 = false <;>
        simp [hm, hnew, hp, hb]

theorem loads_chunky_imp_mesh (calls : List (Env × String)) :
    ∀ ig : InputGeom, (ig.m_chunkyMesh ≠ none → ig.m_mesh ≠ none) →
      (loads calls ig).m_chunkyMesh ≠ none → (loads calls ig).m_mesh ≠ none := by
  induction calls with
  | nil => intro ig h; exact h
  | cons c rest ih =>
    intro ig h
    exact ih (load c.1 ig c.2).ig (load_chunky_imp_mesh c.1 ig c.2 h)

/-! ## C1: presence of the mesh and of the spatial index -/

/-- C1, counterexample: starting from the empty scene, one `load` of an ".obj"
path whose parse fails leaves `Mesh()` non-nil and `ChunkyMesh()` nil, so in
this reachable state "ChunkyMesh() is non-nil if and only if Mesh() is
non-nil" is false. -/
theorem C1_copresence_counterexample :
    (loads [(envParseError, "a.obj")] InputGeom.zero).Mesh ≠ none ∧
    (loads [(envParseError, "a.obj")] InputGeom.zero).ChunkyMesh = none ∧
    ¬ ((loads [(envParseError, "a.obj")] InputGeom.zero).ChunkyMesh ≠ none ↔
        (loads [(envParseError, "a.obj")] InputGeom.zero).Mesh ≠ none) := by
  decide

/-- C1, amended: in every scene state reached from the empty scene by a finite
sequence of `load` calls, with arbitrary outcomes of the parser and of the
index builder in each call, if `ChunkyMesh()` is non-nil then `Mesh()` is
non-nil. The converse holds in the state left by a further `load` of an ".obj"
path on which the loader reports no parse error (whatever the index builder
does). -/
theorem C1_chunkyMesh_implies_mesh (calls : List (Env × String)) :
    ((loads calls InputGeom.zero).ChunkyMesh ≠ none →
      (loads calls InputGeom.zero).Mesh ≠ none) ∧
    (∀ (env : Env) (path : String), env.Ext path = ".obj" →
      (∀ m0, env.NewMeshLoaderObj = some m0 → (env.Load m0 path).2 = none) →
      ((loads (calls ++ [(env, path)]) InputGeom.zero).ChunkyMesh ≠ none ↔
        (loads (calls ++ [(env, path)]) InputGeom.zero).Mesh ≠ none)) := by
  have hinv := loads_chunky_imp_mesh calls InputGeom.zero (fun hc => absurd rfl hc)
  refine ⟨hinv, ?_⟩
  intro env path hext hparse
  have hstep : loads (calls ++ [(env, path)]) InputGeom.zero
      = (load env (loads calls InputGeom.zero) path).ig := by
    simp [loads, List.foldl_append]
  rw [hstep, load_of_obj env _ path hext]
  exact loadMesh_copresence env _ path hinv hparse

/-- C1, witness: after a failed and then a successful load the index is
present, and so is the mesh. -/
theorem C1_chunkyMesh_implies_mesh_witness :
    (loads [(envParseError, "a.obj"), (envSuccess, "b.obj")] InputGeom.zero).ChunkyMesh ≠ none ∧
    (loads [(envParseError, "a.obj"), (envSuccess, "b.obj")] InputGeom.zero).Mesh ≠ none :=
  ⟨by decide,
   (C1_chunkyMesh_implies_mesh [(envParseError, "a.obj"), (envSuccess, "b.obj")]).1 (by decide)⟩

/-! ## C2: parse failure -/

/-- C2, counterexample: on the empty scene, with an ".obj" path on which the
loader reports a parse error, `load` returns false and afterwards `Mesh()` is
not nil. -/
theorem C2_parse_failure_counterexample :
    envParseError.Ext "a.obj" = ".obj" ∧
    (∃ m0, envParseError.NewMeshLoaderObj = some m0 ∧ (envParseError.Load m0 "a.obj").2 ≠ none) ∧
    (load envParseError InputGeom.zero "a.obj").ret = false ∧
    (load envParseError InputGeom.zero "a.obj").ig.Mesh ≠ none :=
  ⟨by decide, ⟨⟨[], 0, [], 0⟩, rfl, by decide⟩, by decide, by decide⟩

/-- C2, amended: for every scene state and every path with extension ".obj" on
which the loader object is constructed and reports a parse error, `load`
returns false and afterwards `Mesh()` is non-nil: it is the loader object on
which `Load` failed. The prior index is dropped when a prior mesh was stored,
the two registry counts are 0 and every other field is as before the call. -/
theorem C2_parse_failure (env : Env) (ig : InputGeom) (path : String) (m0 : MeshLoaderObj)
    (hext : env.Ext path = ".obj") (hnew : env.NewMeshLoaderObj = some m0)
    (herr : (env.Load m0 path).2 ≠ none) :
    (load env ig path).ret = false ∧
    (load env ig path).ig.Mesh = some (env.Load m0 path).1 ∧
    (load env ig path).ig.Mesh ≠ none ∧
    (load env ig path).ig =
      { ig with
        m_mesh := some (env.Load m0 path).1
        m_chunkyMesh := if ig.m_mesh ≠ none then none else ig.m_chunkyMesh
        m_offMeshConCount := 0
        m_volumeCount := 0 } := by
  rw [load_of_obj env ig path hext]
  unfold loadMesh
  by_cases hm : ig.m_mesh = none <;> simp [hm, hnew, herr, InputGeom.Mesh]

/-- C2, witness: the annotated scene and the environment whose loader fails. -/
theorem C2_parse_failure_witness :
    envParseError.Ext "a.obj" = ".obj" ∧
    (load envParseError annotatedScene "a.obj").ret = false ∧
    (load envParseError annotatedScene "a.obj").ig.Mesh ≠ none :=
  have h := C2_parse_failure envParseError annotatedScene "a.obj" ⟨[], 0, [], 0⟩
    (by decide) rfl (by decide)
  ⟨by decide, h.1, h.2.2.1⟩

/-! ## C3: failure of the index construction -/

/-- C3, counterexample: on the empty scene, with an ".obj" path whose parse
succeeds and whose index construction fails, `load` returns false and
afterwards both `Mesh()` and `ChunkyMesh()` are non-nil. -/
theorem C3_build_failure_counterexample :
    envBuildFailure.Ext "a.obj" = ".obj" ∧
    (load envBuildFailure InputGeom.zero "a.obj").ret = false ∧
    (load envBuildFailure InputGeom.zero "a.obj").ig.Mesh ≠ none ∧
    (load envBuildFailure InputGeom.zero "a.obj").ig.ChunkyMesh ≠ none := by
  decide

/-- C3, amended: for every scene state and every ".obj" path whose parse
succeeds and for which `CreateChunkyTriMesh` returns false, `load` returns
false and afterwards both `Mesh()` and `ChunkyMesh()` are non-nil: the parsed
mesh and the index object handed to the builder stay stored. -/
theorem C3_build_failure (env : Env) (ig : InputGeom) (path : String) (m0 : MeshLoaderObj)
    (hext : env.Ext path = ".obj") (hnew : env.NewMeshLoaderObj = some m0)
    (hparse : (env.Load m0 path).2 = none)
    (hbuild : (env.CreateChunkyTriMesh (env.Load m0 path).1.Verts (env.Load m0 path).1.Tris
      (env.Load m0 path).1.TriCount 256 ChunkyTriMesh.zero).2 = false) :
    (load env ig path).ret = false ∧
    (load env ig path).ig.Mesh = some (env.Load m0 path).1 ∧
    (load env ig path).ig.ChunkyMesh =
      some (env.CreateChunkyTriMesh (env.Load m0 path).1.Verts (env.Load m0 path).1.Tris
        (env.Load m0 path).1.TriCount 256 ChunkyTriMesh.zero).1 ∧
    (load env ig path).ig.Mesh ≠ none ∧
    (load env ig path).ig.ChunkyMesh ≠ none := by
  rw [load_of_obj env ig path hext]
  unfold loadMesh
  by_cases hm : ig.m_mesh = none <;>
    simp [hm, hnew, hparse, hbuild, InputGeom.Mesh, InputGeom.ChunkyMesh]

/-- C3, witness: the annotated scene and the environment whose index builder
fails. -/
theorem C3_build_failure_witness :
    envBuildFailure.Ext "a.obj" = ".obj" ∧
    (load envBuildFailure annotatedScene "a.obj").ret = false ∧
    (load envBuildFailure annotatedScene "a.obj").ig.Mesh = some oneTriangle ∧
    (load envBuildFailure annotatedScene "a.obj").ig.ChunkyMesh = some ChunkyTriMesh.zero :=
  have h := C3_build_failure envBuildFailure annotatedScene "a.obj" ⟨[], 0, [], 0⟩
    (by decide) rfl rfl rfl
  ⟨by decide, h.1, h.2.1, h.2.2.1⟩

/-! ## C4: the view of the convex volumes -/

/-- C4, counterexample: in the empty scene the active count is 0 while the
slice `ConvexVolumes()` has length 256, the backing capacity, and its entry at
index 0, which is not below the active count, is exposed. -/
theorem C4_view_length_counterexample :
    InputGeom.zero.ConvexVolumesCount = 0 ∧
    InputGeom.zero.ConvexVolumes.length = 256 ∧
    (InputGeom.zero.ConvexVolumes.length : Int) ≠ InputGeom.zero.ConvexVolumesCount ∧
    InputGeom.zero.ConvexVolumes[0]? = some ConvexVolume.zero := by
  have hlen : InputGeom.zero.ConvexVolumes.length = 256 := by
    simp [InputGeom.ConvexVolumes]
  refine ⟨rfl, hlen, ?_, ?_⟩
  · rw [hlen]
    show ((256 : Nat) : Int) ≠ 0
    decide
  · show (List.replicate 256 ConvexVolume.zero)[0]? = some ConvexVolume.zero
    rw [List.getElem?_replicate, if_pos (by decide)]

/-- C4, amended: for every scene state, `ConvexVolumes()` is the whole backing
array as a slice: its length is MAX_VOLUMES (256) whatever the active count,
and every entry of `m_volumes` is exposed at its index, also at an index not
below the active count. The active count is reported separately, by
`ConvexVolumesCount()`, which returns `m_volumeCount`. -/
theorem C4_view_is_backing_array (ig : InputGeom) :
    ig.ConvexVolumes.length = MAX_VOLUMES ∧
    ig.ConvexVolumesCount = ig.m_volumeCount ∧
    ∀ i : Fin MAX_VOLUMES, ig.ConvexVolumes[i.val]? = some (ig.m_volumes.get i) := by
  refine ⟨by simp [InputGeom.ConvexVolumes], rfl, ?_⟩
  intro i
  have hi : i.val < ig.m_volumes.toList.length := by simp
  simp only [InputGeom.ConvexVolumes]
  rw [List.getElem?_eq_getElem hi]
  rfl

/-! ## C5: reset of the registries on every load -/

/-- C5: for every scene state and every path with extension ".obj", after
`load` returns, whatever the outcome of the parser and of the index builder,
`ConvexVolumesCount()` and `m_offMeshConCount` are both 0. -/
theorem C5_reset_on_reload (env : Env) (ig : InputGeom) (path : String)
    (hext : env.Ext path = ".obj") :
    (load env ig path).ig.ConvexVolumesCount = 0 ∧
    (load env ig path).ig.m_offMeshConCount = 0 := by
  rw [load_of_obj env ig path hext]
  unfold loadMesh
  cases hnew : env.NewMeshLoaderObj with
  | none => simp [InputGeom.ConvexVolumesCount]
  | some m0 =>
    simp only [InputGeom.ConvexVolumesCount]
    split_ifs <;> simp

/-- C5, witness: a scene with five volumes and three connections, reloaded
with a failing parser. -/
theorem C5_reset_on_reload_witness :
    envParseError.Ext "a.obj" = ".obj" ∧
    annotatedScene.ConvexVolumesCount = 5 ∧
    annotatedScene.m_offMeshConCount = 3 ∧
    (load envParseError annotatedScene "a.obj").ig.ConvexVolumesCount = 0 ∧
    (load envParseError annotatedScene "a.obj").ig.m_offMeshConCount = 0 :=
  ⟨by decide, rfl, rfl, C5_reset_on_reload envParseError annotatedScene "a.obj" (by decide)⟩

/-! ## C6: navmesh bounds -/

/-- C6: for every scene state, `NavMeshBoundsMin()` and `NavMeshBoundsMax()`
return the configuration's `navMeshBMin` and `navMeshBMax` when
`m_hasBuildSettings` is true and otherwise exactly `MeshBoundsMin()` and
`MeshBoundsMax()`. The answer is read from the flag and the stored fields at
the time of the query: storing a configuration and setting the flag on any
scene (in particular on the scene a load has left) makes the two accessors
return that configuration's box, with the mesh bounds as they were. -/
theorem C6_bounds_fallback (ig : InputGeom) :
    (ig.NavMeshBoundsMin =
      if ig.m_hasBuildSettings = true then ig.m_buildSettings.navMeshBMin
      else ig.MeshBoundsMin) ∧
    (ig.NavMeshBoundsMax =
      if ig.m_hasBuildSettings = true then ig.m_buildSettings.navMeshBMax
      else ig.MeshBoundsMax) ∧
    (∀ bs : BuildSettings,
      { ig with m_buildSettings := bs, m_hasBuildSettings := true }.NavMeshBoundsMin
          = bs.navMeshBMin ∧
      { ig with m_buildSettings := bs, m_hasBuildSettings := true }.NavMeshBoundsMax
          = bs.navMeshBMax ∧
      { ig with m_buildSettings := bs, m_hasBuildSettings := true }.MeshBoundsMin
          = ig.MeshBoundsMin ∧
      { ig with m_buildSettings := bs, m_hasBuildSettings := true }.MeshBoundsMax
          = ig.MeshBoundsMax) := by
  refine ⟨rfl, rfl, ?_⟩
  intro bs
  exact ⟨rfl, rfl, rfl, rfl⟩

/-! ## C7: extensions other than ".obj" -/

/-- C7: for every scene state and every path whose extension is not ".obj",
`load` returns false and leaves the scene as it was, field for field; the mesh
and the index read after the call are those read before it, and the result
does not depend on the loader or on the index builder (none of them is
called). -/
theorem C7_other_extension_no_effect (env : Env) (ig : InputGeom) (path : String)
    (hext : env.Ext path ≠ ".obj") :
    (load env ig path).ret = false ∧
    (load env ig path).ig = ig ∧
    (load env ig path).ig.Mesh = ig.Mesh ∧
    (load env ig path).ig.ChunkyMesh = ig.ChunkyMesh ∧
    (∀ env2 : Env, env2.Ext path = env.Ext path →
      (load env2 ig path).ig = (load env ig path).ig ∧
      (load env2 ig path).ret = (load env ig path).ret ∧
      (load env2 ig path).log = (load env ig path).log) := by
  have h := load_of_not_obj env ig path hext
  refine ⟨h.2, h.1, by rw [h.1], by rw [h.1], ?_⟩
  intro env2 h2
  unfold load
  rw [h2, if_neg hext, if_neg hext]
  exact ⟨rfl, rfl, rfl⟩

/-- C7, witness: "scene.gset" on the empty scene, in an environment whose
loader and index builder would succeed. -/
theorem C7_other_extension_no_effect_witness :
    envSuccess.Ext "scene.gset" = ".gset" ∧
    (load envSuccess InputGeom.zero "scene.gset").ret = false ∧
    (load envSuccess InputGeom.zero "scene.gset").ig = InputGeom.zero ∧
    (load envSuccess InputGeom.zero "scene.gset").ig.Mesh = none ∧
    (load envSuccess InputGeom.zero "scene.gset").ig.ChunkyMesh = none :=
  have h := C7_other_extension_no_effect envSuccess InputGeom.zero "scene.gset" (by decide)
  ⟨by decide, h.1, h.2.1, h.2.2.1, h.2.2.2.1⟩

/-! ## C8: when load returns true -/

/-- C8: for every scene state and path, `load` returns true if and only if the
extension of the path is ".obj", the loader object is constructed and parses
the path without error, and `CreateChunkyTriMesh` succeeds on the parsed mesh
(with 256 triangles per chunk, on a fresh index object); and when `load`
returns true both `Mesh()` and `ChunkyMesh()` are non-nil. -/
theorem C8_load_success_iff (env : Env) (ig : InputGeom) (path : String) :
    ((load env ig path).ret = true ↔
      env.Ext path = ".obj" ∧
      ∃ m0, env.NewMeshLoaderObj = some m0 ∧
        (env.Load m0 path).2 = none ∧
        (env.CreateChunkyTriMesh (env.Load m0 path).1.Verts (env.Load m0 path).1.Tris
          (env.Load m0 path).1.TriCount 256 ChunkyTriMesh.zero).2 = true) ∧
    ((load env ig path).ret = true →
      (load env ig path).ig.Mesh ≠ none ∧ (load env ig path).ig.ChunkyMesh ≠ none) := by
  by_cases hext : env.Ext path = ".obj"
  · rw [load_of_obj env ig path hext]
    unfold loadMesh
    cases hnew : env.NewMeshLoaderObj with
    | none => simp
    | some m0 =>
      by_cases hparse : (env.Load m0 path).2 = none
      · by_cases hbuild : (env.CreateChunkyTriMesh (env.Load m0 path).1.Verts
          (env.Load m0 path).1.Tris (env.Load m0 path).1.TriCount 256 ChunkyTriMesh.zero).2 = true
        · simp [hext, hparse, hbuild, InputGeom.Mesh, InputGeom.ChunkyMesh]
        · simp [hext, hparse, hbuild, InputGeom.Mesh, InputGeom.ChunkyMesh]
      · simp [hext, hparse, InputGeom.Mesh, InputGeom.ChunkyMesh]
  · have h := (load_of_not_obj env ig path hext).2
    simp [h, hext]

/-- C8, example: in the environment where every step succeeds a load of an
".obj" path returns true and stores the parsed mesh and the built index; with
a failing parser, a failing builder or another extension it returns false. -/
theorem C8_load_success_iff_witness :
    (load envSuccess InputGeom.zero "a.obj").ret = true ∧
    (load envSuccess InputGeom.zero "a.obj").ig.Mesh ≠ none ∧
    (load envSuccess InputGeom.zero "a.obj").ig.ChunkyMesh ≠ none ∧
    (load envParseError InputGeom.zero "a.obj").ret = false ∧
    (load envBuildFailure InputGeom.zero "a.obj").ret = false ∧
    (load envSuccess InputGeom.zero "a.txt").ret = false :=
  have hret : (load envSuccess InputGeom.zero "a.obj").ret = true := by decide
  have h := (C8_load_success_iff envSuccess InputGeom.zero "a.obj").2 hret
  ⟨hret, h.1, h.2, by decide, by decide, by decide⟩

/-! ## C9: presence of the build configuration -/

/-- C9: for every scene state, `BuildSettings()` returns nil if and only if
`m_hasBuildSettings` is false, and when the flag is true it returns the stored
record. A stored record whose fields are all zero is returned as that record
when the flag is set, and nil is returned when the flag is clear whatever the
stored record. -/
theorem C9_buildSettings_presence (ig : InputGeom) :
    (ig.BuildSettings = none ↔ ig.m_hasBuildSettings = false) ∧
    (ig.m_hasBuildSettings = true → ig.BuildSettings = some ig.m_buildSettings) ∧
    ({ ig with m_buildSettings := BuildSettings.zero, m_hasBuildSettings := true }.BuildSettings
      = some BuildSettings.zero) ∧
    (∀ bs : BuildSettings,
      { ig with m_buildSettings := bs, m_hasBuildSettings := false }.BuildSettings = none) := by
  refine ⟨?_, ?_, rfl, fun _ => rfl⟩
  · cases h : ig.m_hasBuildSettings <;> simp [InputGeom.BuildSettings, h]
  · intro h
    simp [InputGeom.BuildSettings, h]

/-- C9, example: the empty scene has no configuration although its stored
record is all zero, and the same scene with the flag set has the all-zero
record as its configuration. -/
theorem C9_buildSettings_presence_witness :
    InputGeom.zero.m_buildSettings = BuildSettings.zero ∧
    InputGeom.zero.BuildSettings = none ∧
    { InputGeom.zero with m_hasBuildSettings := true }.BuildSettings = some BuildSettings.zero :=
  ⟨rfl, (C9_buildSettings_presence InputGeom.zero).1.2 rfl,
   (C9_buildSettings_presence { InputGeom.zero with m_hasBuildSettings := true }).2.1 rfl⟩

/-! ## C10: load and the build configuration -/

/-- C10: for every scene state, every path and every outcome of the loader
and of the index builder, `m_buildSettings` and `m_hasBuildSettings` are the
same after `load` as before; so `BuildSettings()` is the same, and when a
configuration is present `NavMeshBoundsMin()` and `NavMeshBoundsMax()` return
after the load the box they returned before it. -/
theorem C10_load_keeps_configuration (env : Env) (ig : InputGeom) (path : String) :
    (load env ig path).ig.m_buildSettings = ig.m_buildSettings ∧
    (load env ig path).ig.m_hasBuildSettings = ig.m_hasBuildSettings ∧
    (load env ig path).ig.BuildSettings = ig.BuildSettings ∧
    (ig.m_hasBuildSettings = true →
      (load env ig path).ig.NavMeshBoundsMin = ig.NavMeshBoundsMin ∧
      (load env ig path).ig.NavMeshBoundsMax = ig.NavMeshBoundsMax) := by
  have hkeep : (load env ig path).ig.m_buildSettings = ig.m_buildSettings ∧
      (load env ig path).ig.m_hasBuildSettings = ig.m_hasBuildSettings := by
    by_cases hext : env.Ext path = ".obj"
    · rw [load_of_obj env ig path hext]
      unfold loadMesh
      cases hnew : env.NewMeshLoaderObj with
      | none => by_cases hm : ig.m_mesh = none <;> simp [hm]
      | some m0 =>
        by_cases hm : ig.m_mesh = none <;> simp only [hm] <;> split_ifs <;> simp
    · rw [(load_of_not_obj env ig path hext).1]
      exact ⟨rfl, rfl⟩
  refine ⟨hkeep.1, hkeep.2, ?_, ?_⟩
  · simp [InputGeom.BuildSettings, hkeep.1, hkeep.2]
  · intro hflag
    simp [InputGeom.NavMeshBoundsMin, InputGeom.NavMeshBoundsMax, hkeep.1, hkeep.2, hflag]

/-- C10, example: a scene with a configuration is loaded successfully; the
computed mesh bounds change and the navmesh bounds stay the override box. -/
theorem C10_load_keeps_configuration_witness :
    configuredScene.m_hasBuildSettings = true ∧
    (load envSuccess configuredScene "a.obj").ret = true ∧
    (load envSuccess configuredScene "a.obj").ig.MeshBoundsMax ≠ configuredScene.MeshBoundsMax ∧
    (load envSuccess configuredScene "a.obj").ig.NavMeshBoundsMin
      = configuredScene.NavMeshBoundsMin ∧
    (load envSuccess configuredScene "a.obj").ig.NavMeshBoundsMax
      = configuredScene.NavMeshBoundsMax :=
  have h := (C10_load_keeps_configuration envSuccess configuredScene "a.obj").2.2.2 rfl
  ⟨rfl, by decide, by decide, h.1, h.2⟩

/-- C6, example: the empty scene after a successful load has navmesh bounds
equal to its mesh bounds; the same scene with a configuration attached
afterwards answers with the configuration's box. -/
theorem C6_bounds_fallback_witness :
    (load envSuccess InputGeom.zero "a.obj").ig.NavMeshBoundsMax
      = (load envSuccess InputGeom.zero "a.obj").ig.MeshBoundsMax ∧
    { (load envSuccess InputGeom.zero "a.obj").ig with
        m_buildSettings := configuredScene.m_buildSettings
        m_hasBuildSettings := true }.NavMeshBoundsMax
      = configuredScene.m_buildSettings.navMeshBMax :=
  ⟨(C6_bounds_fallback (load envSuccess InputGeom.zero "a.obj").ig).2.1,
   ((C6_bounds_fallback (load envSuccess InputGeom.zero "a.obj").ig).2.2
      configuredScene.m_buildSettings).2.1⟩

end Detour
